import Mathlib

/-
Verification of the LiverCare health-report page (src/src/pages/HealthReport.tsx).

The page is a linear pipeline: read a session identifier, fetch a record,
map it into a view-model, render it, and optionally export a PDF.  We embed
each step as an explicit Lean function: the mount effect becomes a function
from the ambient inputs (session identifier, fetch outcome) to the final
component state; the PDF generation becomes a function producing the list of
emitted text lines together with the saved file name.
-/

namespace LiverCare

/-- Patient record fetched from the remote data service.
Modelled from the spec: the `Patient` type is imported from `patient.type`,
a file not present in the available source.  The spec describes it as
"attributes including identifier, name, age, report date, and a numeric risk
score"; every field read by the page is accessed through `?.`/`??` defaults,
so all fields are modelled as optional. -/
structure Patient where
  Patient_ID : Option String
  Name : Option String
  Age : Option Int
  Report_Date : Option String
  riskScore : Option ℚ
deriving DecidableEq, Repr

/-- The report view-model (`HealthReportData` in the source). -/
structure HealthReportData where
  patientName : String
  age : Int
  assessmentDate : String
  riskScore : ℚ
  keyFindings : List String
  recommendations : List String
  nextSteps : List String
deriving DecidableEq, Repr

/-- The record-to-view-model mapping performed inside the fetch handler
(lines 36-59 of HealthReport.tsx).  `patient` is `data[0]`, which may be
absent when the fetched array is empty, hence `Option Patient`.  Each scalar
field is defaulted exactly as the source's `patient?.field ?? default`; the
three lists are the fixed literals of the source. -/
def mapRecord (patient : Option Patient) : HealthReportData :=
  { patientName := (patient.bind Patient.Name).getD "Unknown"
    age := (patient.bind Patient.Age).getD 0
    assessmentDate := (patient.bind Patient.Report_Date).getD ""
    riskScore := (patient.bind Patient.riskScore).getD 0
    keyFindings :=
      ["Elevated bilirubin levels (2.5 mg/dL)",
       "Normal albumin levels",
       "Platelet count within range",
       "Slightly elevated prothrombin time"]
    recommendations :=
      ["Regular monitoring of liver function tests",
       "Maintain healthy diet and exercise routine",
       "Avoid alcohol consumption",
       "Schedule follow-up in 3 months"]
    nextSteps :=
      ["Book appointment with hepatologist",
       "Complete follow-up blood tests",
       "Join liver health support group",
       "Download patient education materials"] }

/-- Outcome of the single fetch request: the resolved, parsed array of
records, or a rejection (network or parse error) carrying the logged error. -/
inductive FetchResult where
  | ok (data : List Patient)
  | error (err : String)
deriving DecidableEq, Repr

/-- Whether the fetch resolved successfully. -/
def FetchResult.isOk : FetchResult → Bool
  | .ok _ => true
  | .error _ => false

/-- Component state after the mount effect has run: the two `useState`
values `report` and `patientData`, the `loading` flag, plus the observable
effects (navigation target, whether a fetch was issued, errors logged to the
console). -/
structure PageState where
  report : Option HealthReportData
  patientData : Option Patient
  loading : Bool
  navTarget : Option String
  fetchIssued : Bool
  loggedErrors : List String
deriving DecidableEq, Repr

/-- The state at mount: `report` and `patientData` start `null`, `loading`
starts `true`, and no effect has happened yet. -/
def initialState : PageState :=
  { report := none, patientData := none, loading := true,
    navTarget := none, fetchIssued := false, loggedErrors := [] }

/-- The mount effect (lines 23-66 of HealthReport.tsx) as a function of the
ambient inputs: the session-stored patient identifier and the outcome the
fetch would deliver.  No identifier: navigate to `/login`, no fetch.
Resolved fetch: take `data[0]`, store it, build the view-model, end loading.
Rejected fetch: log the error and end loading, leaving `report` null. -/
def mount (sessionPatientId : Option String) (result : FetchResult) : PageState :=
  match sessionPatientId with
  | none => { initialState with navTarget := some "/login" }
  | some _ =>
    match result with
    | .ok data =>
      let patient := data.head?
      { initialState with
          fetchIssued := true
          patientData := patient
          report := some (mapRecord patient)
          loading := false }
    | .error err =>
      { initialState with
          fetchIssued := true
          loggedErrors := [err]
          loading := false }

/-- The three mutually exclusive screens the component can return:
the spinner, the generic "Report Not Found" screen (which carries no error
detail and no retry control), and the report view. -/
inductive Screen where
  | loadingSpinner
  | notFound
  | reportView (report : HealthReportData) (patientData : Option Patient)
deriving DecidableEq, Repr

/-- The render function (lines 105-191): spinner while loading, the
"Report Not Found" screen when no view-model exists, otherwise the report. -/
def render (s : PageState) : Screen :=
  if s.loading then .loadingSpinner
  else
    match s.report with
    | none => .notFound
    | some r => .reportView r s.patientData

/-- The risk-score colour classification (lines 162-166): the ternary chain
`score > 70 ? red : score > 40 ? yellow : green`, applied by the page to
`patientData?.riskScore ?? 0`. -/
def riskColorClass (score : ℚ) : String :=
  if score > 70 then "text-red-600"
  else if score > 40 then "text-yellow-600"
  else "text-green-600"

lemma riskColorClass_red_iff (r : ℚ) :
    riskColorClass r = "text-red-600" ↔ 70 < r := by
  unfold riskColorClass
  split_ifs with h1 h2 <;> simp_all

lemma riskColorClass_yellow_iff (r : ℚ) :
    riskColorClass r = "text-yellow-600" ↔ 40 < r ∧ r ≤ 70 := by
  unfold riskColorClass
  split_ifs with h1 h2
  · constructor
    · intro h; exact absurd h (by decide)
    · rintro ⟨-, h⟩; exact absurd (lt_of_lt_of_le h1 h) (lt_irrefl _)
  · simp only [not_lt] at h1
    constructor
    · intro _; exact ⟨h2, h1⟩
    · intro _; rfl
  · simp only [not_lt] at h1 h2
    constructor
    · intro h; exact absurd h (by decide)
    · rintro ⟨h, -⟩; exact absurd (lt_of_lt_of_le h h2) (lt_irrefl _)

lemma riskColorClass_green_iff (r : ℚ) :
    riskColorClass r = "text-green-600" ↔ r ≤ 40 := by
  unfold riskColorClass
  split_ifs with h1 h2
  · constructor
    · intro h; exact absurd h (by decide)
    · intro h; exact absurd (lt_of_lt_of_le (by linarith : (40:ℚ) < r) h) (by simp)
  · constructor
    · intro h; exact absurd h (by decide)
    · intro h; exact absurd (lt_of_lt_of_le h2 h) (lt_irrefl _)
  · simp only [not_lt] at h2
    exact ⟨fun _ => h2, fun _ => rfl⟩

/-- One `doc.text` call of the PDF generation: the font size in effect, the
text, and the (x, y) position. -/
structure TextLine where
  fontSize : Nat
  text : String
  x : Nat
  y : Nat
deriving DecidableEq, Repr

/-- JavaScript's `Number.prototype.toFixed(1)` on a rational: one decimal
digit, rounding to the nearest tenth.  Only the shape of the emitted string
matters to the claims, never a particular rounding edge case. -/
def ratToFixed1 (q : ℚ) : String :=
  let n : Int := round (q * 10)
  toString (n / 10) ++ "." ++ toString (n % 10).natAbs

/-- The bullet lines of one section (the `items.forEach` loop of
`addSection`, lines 90-93): each item is emitted at the current cursor at
font 12, x = 25, prefixed with a bullet, and the cursor advances by 10. -/
def bulletLines : List String → Nat → List TextLine × Nat
  | [], yPos => ([], yPos)
  | item :: rest, yPos =>
    let tail := bulletLines rest (yPos + 10)
    (⟨12, "• " ++ item, 25, yPos⟩ :: tail.1, tail.2)

/-- `addSection` (lines 85-95): heading at font 14 at the cursor, cursor +10,
then the bulleted items at font 12, then an extra +10 gap. -/
def addSection (title : String) (items : List String) (yPos : Nat) :
    List TextLine × Nat :=
  let bs := bulletLines items (yPos + 10)
  (⟨14, title, 20, yPos⟩ :: bs.1, bs.2 + 10)

/-- `generatePDF` (lines 68-103) as a function of the loaded view-model and
the session identifier read at save time.  Returns `none` when no view-model
is loaded (the early `if (!report) return`), otherwise the emitted text
lines in order together with the file name passed to `doc.save`. -/
def generatePDF (report : Option HealthReportData)
    (sessionPatientId : Option String) : Option (List TextLine × String) :=
  match report with
  | none => none
  | some r =>
    let yPos0 := 20
    let title : TextLine := ⟨20, "Liver Health Assessment Report", 20, yPos0⟩
    let yPos1 := yPos0 + 20
    let fields : List TextLine :=
      [⟨12, "Patient: " ++ r.patientName, 20, yPos1⟩,
       ⟨12, "Age: " ++ toString r.age, 20, yPos1 + 10⟩,
       ⟨12, "Assessment Date: " ++ r.assessmentDate, 20, yPos1 + 20⟩,
       ⟨12, "Risk Score: " ++ ratToFixed1 r.riskScore ++ "%", 20, yPos1 + 30⟩]
    let yPos2 := yPos1 + 50
    let sec1 := addSection "Key Findings" r.keyFindings yPos2
    let sec2 := addSection "Recommendations" r.recommendations sec1.2
    let sec3 := addSection "Next Steps" r.nextSteps sec2.2
    let patientId := sessionPatientId.getD "report"
    some (title :: fields ++ sec1.1 ++ sec2.1 ++ sec3.1,
      "liver-health-report-" ++ patientId ++ ".pdf")

/-- Spec-side description of one exported section, following the spec's
words: a heading at the section's start cursor, then one bulleted line per
list item, the i-th item sitting one line height (10 units) below the
previous line, i.e. at `y + 10 * (i + 1)`. -/
def specSectionLines (title : String) (items : List String) (y : Nat) :
    List TextLine :=
  ⟨14, title, 20, y⟩ ::
    items.mapIdx (fun i item => ⟨12, "• " ++ item, 25, y + 10 * (i + 1)⟩)

/-- Spec-side cursor position after a section starting at `y`: one line for
the heading, one per item, plus the extra 10-unit gap after the section. -/
def specSectionEnd (items : List String) (y : Nat) : Nat :=
  y + 10 * (items.length + 1) + 10

lemma mapIdx_congr_fun {α β : Type} (l : List α) (f g : ℕ → α → β)
    (h : ∀ i a, f i a = g i a) : l.mapIdx f = l.mapIdx g := by
  induction l generalizing f g with
  | nil => rfl
  | cons a rest ih =>
    simp only [List.mapIdx_cons]
    exact List.cons_eq_cons.mpr ⟨h 0 a, ih _ _ fun i b => h (i + 1) b⟩

lemma bulletLines_eq (items : List String) (y : Nat) :
    bulletLines items y =
      ((items.mapIdx fun i item => ⟨12, "• " ++ item, 25, y + 10 * i⟩),
       y + 10 * items.length) := by
  induction items generalizing y with
  | nil => simp [bulletLines]
  | cons a rest ih =>
    simp only [bulletLines, ih (y + 10), List.mapIdx_cons, List.length_cons,
      Prod.mk.injEq]
    constructor
    · refine List.cons_eq_cons.mpr ⟨by simp, ?_⟩
      refine mapIdx_congr_fun _ _ _ fun i item => ?_
      have h : y + 10 + 10 * i = y + 10 * (i + 1) := by ring
      simp [h]
    · ring

lemma addSection_eq (title : String) (items : List String) (y : Nat) :
    addSection title items y =
      (specSectionLines title items y, specSectionEnd items y) := by
  simp only [addSection, bulletLines_eq, specSectionLines, specSectionEnd,
    Prod.mk.injEq]
  constructor
  · refine List.cons_eq_cons.mpr ⟨rfl, ?_⟩
    refine mapIdx_congr_fun _ _ _ fun i item => ?_
    have h : y + 10 + 10 * i = y + 10 * (i + 1) := by ring
    simp [h]
  · ring

/-- C1 (counterexample): the claim "for every fetch that resolves with an
empty array, the page ends in the not-found terminal display state (report
remains null)" is false.  With a session identifier present and a fetch
resolving with `[]`, the handler sets `report` to a view-model built from
the `??` defaults (`data[0]` is absent, so every field defaults), so
`report` is not null and the rendered screen is the report view, not the
"Report Not Found" screen. -/
theorem mount_empty_array_cex :
    (mount (some "p1") (FetchResult.ok [])).report ≠ none ∧
    render (mount (some "p1") (FetchResult.ok [])) ≠ Screen.notFound := by
  decide

/-- C1 (amended): the view-model exists if and only if a session identifier
was present and the fetch resolved successfully — regardless of whether the
resolved array was empty.  In particular, for every fetch that resolves with
an empty array the page does end the loading state, but it ends in the
report display state built entirely from the default field values, not in
the "not found" state. -/
theorem mount_report_iff_fetch_resolved :
    (∀ sid result, (mount sid result).report.isSome =
      (sid.isSome && FetchResult.isOk result)) ∧
    ∀ id, (mount (some id) (FetchResult.ok [])).loading = false ∧
      render (mount (some id) (FetchResult.ok [])) =
        Screen.reportView (mapRecord none) none := by
  constructor
  · intro sid result
    cases sid <;> cases result <;> rfl
  · intro id
    exact ⟨rfl, rfl⟩

/-- C2: the three-tier colour classification of a numeric risk score `r`
yields the high tier (red) exactly when `r > 70`, the medium tier (yellow)
exactly when `40 < r ≤ 70`, and the low tier (green) otherwise; in
particular 71 is high, exactly 40 is low (the `> 40` boundary is
exclusive), and 0 is low. -/
theorem riskColorClass_three_tiers :
    (∀ r : ℚ, (riskColorClass r = "text-red-600" ↔ 70 < r) ∧
      (riskColorClass r = "text-yellow-600" ↔ 40 < r ∧ r ≤ 70) ∧
      (riskColorClass r = "text-green-600" ↔ r ≤ 40)) ∧
    riskColorClass 71 = "text-red-600" ∧
    riskColorClass 40 = "text-green-600" ∧
    riskColorClass 0 = "text-green-600" := by
  refine ⟨fun r => ⟨riskColorClass_red_iff r, riskColorClass_yellow_iff r,
    riskColorClass_green_iff r⟩, ?_, ?_, ?_⟩ <;> decide

/-- C3: the record-to-view-model mapping is total (it is a function into
`HealthReportData`, never failing), and on a record whose optional fields
are all missing it substitutes the documented defaults: name "Unknown",
age 0, empty assessment date, risk score 0. -/
theorem mapRecord_missing_fields_defaults (p : Option Patient)
    (hName : p.bind Patient.Name = none) (hAge : p.bind Patient.Age = none)
    (hDate : p.bind Patient.Report_Date = none)
    (hRisk : p.bind Patient.riskScore = none) :
    (mapRecord p).patientName = "Unknown" ∧ (mapRecord p).age = 0 ∧
    (mapRecord p).assessmentDate = "" ∧ (mapRecord p).riskScore = 0 := by
  simp [mapRecord, hName, hAge, hDate, hRisk]

/-- Witness for C3 at the concrete record with every optional field
missing. -/
theorem mapRecord_missing_fields_defaults_witness :
    ((some (Patient.mk none none none none none)).bind Patient.Name = none) ∧
    ((some (Patient.mk none none none none none)).bind Patient.Age = none) ∧
    ((some (Patient.mk none none none none none)).bind Patient.Report_Date
      = none) ∧
    ((some (Patient.mk none none none none none)).bind Patient.riskScore
      = none) ∧
    ((mapRecord (some (Patient.mk none none none none none))).patientName
        = "Unknown" ∧
      (mapRecord (some (Patient.mk none none none none none))).age = 0 ∧
      (mapRecord (some (Patient.mk none none none none none))).assessmentDate
        = "" ∧
      (mapRecord (some (Patient.mk none none none none none))).riskScore
        = 0) :=
  ⟨rfl, rfl, rfl, rfl,
    mapRecord_missing_fields_defaults
      (some (Patient.mk none none none none none)) rfl rfl rfl rfl⟩

/-- C4: when no patient identifier is in session storage at mount, the page
navigates to the login entry point, issues no fetch, and the view-model
stays null — for any outcome the fetch would have had. -/
theorem mount_no_session_redirects (result : FetchResult) :
    (mount none result).navTarget = some "/login" ∧
    (mount none result).fetchIssued = false ∧
    (mount none result).report = none :=
  ⟨rfl, rfl, rfl⟩

/-- C5: invoking the PDF export with no loaded view-model is a no-op: no
document is produced and no file save happens (the export returns nothing),
for any session identifier. -/
theorem generatePDF_no_report (sessionPatientId : Option String) :
    generatePDF none sessionPatientId = none :=
  rfl

/-- C6: for every loaded view-model, the exported document is exactly, in
order: the fixed title at y = 20; the four labeled fields Patient, Age,
Assessment Date, Risk Score at the fixed offsets y = 40, 50, 60, 70; then
the sections Key Findings, Recommendations, Next Steps in that order
starting at y = 90, each a heading followed by one bulleted line per item
with the cursor advancing 10 units after every emitted line and an extra
10-unit gap after each section (`specSectionEnd`). -/
theorem generatePDF_structure (r : HealthReportData)
    (sessionPatientId : Option String) :
    generatePDF (some r) sessionPatientId =
      some
        (⟨20, "Liver Health Assessment Report", 20, 20⟩ ::
          ⟨12, "Patient: " ++ r.patientName, 20, 40⟩ ::
          ⟨12, "Age: " ++ toString r.age, 20, 50⟩ ::
          ⟨12, "Assessment Date: " ++ r.assessmentDate, 20, 60⟩ ::
          ⟨12, "Risk Score: " ++ ratToFixed1 r.riskScore ++ "%", 20, 70⟩ ::
          (specSectionLines "Key Findings" r.keyFindings 90 ++
            specSectionLines "Recommendations" r.recommendations
              (specSectionEnd r.keyFindings 90) ++
            specSectionLines "Next Steps" r.nextSteps
              (specSectionEnd r.recommendations
                (specSectionEnd r.keyFindings 90))),
        "liver-health-report-" ++ sessionPatientId.getD "report" ++ ".pdf") := by
  simp [generatePDF, addSection_eq]

/-- C7: for every export with a loaded view-model, the saved file name is
`liver-health-report-<identifier>.pdf` when the session identifier is
present at export time, and `liver-health-report-report.pdf` (the fallback
literal "report") when it is absent. -/
theorem generatePDF_filename (r : HealthReportData) :
    (∀ id : String, (generatePDF (some r) (some id)).map Prod.snd =
      some ("liver-health-report-" ++ id ++ ".pdf")) ∧
    (generatePDF (some r) none).map Prod.snd =
      some "liver-health-report-report.pdf" := by
  exact ⟨fun id => rfl, rfl⟩

/-- C8: for every fetch that fails (network or parse rejection), the
loading state terminates, the view-model stays null, the error is logged to
the diagnostic channel, no navigation happens, and the rendered screen is
the generic "Report Not Found" screen — a screen constructor carrying no
retry control and no error detail. -/
theorem mount_fetch_error (id err : String) :
    (mount (some id) (FetchResult.error err)).loading = false ∧
    (mount (some id) (FetchResult.error err)).report = none ∧
    (mount (some id) (FetchResult.error err)).loggedErrors = [err] ∧
    (mount (some id) (FetchResult.error err)).navTarget = none ∧
    render (mount (some id) (FetchResult.error err)) = Screen.notFound :=
  ⟨rfl, rfl, rfl, rfl, rfl⟩

/-- C9: for every fetched record (present or absent), the view-model's
keyFindings, recommendations and nextSteps are exactly the fixed literal
lists of four strings from the source, independent of the record. -/
theorem mapRecord_fixed_lists (p : Option Patient) :
    (mapRecord p).keyFindings =
      ["Elevated bilirubin levels (2.5 mg/dL)",
       "Normal albumin levels",
       "Platelet count within range",
       "Slightly elevated prothrombin time"] ∧
    (mapRecord p).recommendations =
      ["Regular monitoring of liver function tests",
       "Maintain healthy diet and exercise routine",
       "Avoid alcohol consumption",
       "Schedule follow-up in 3 months"] ∧
    (mapRecord p).nextSteps =
      ["Book appointment with hepatologist",
       "Complete follow-up blood tests",
       "Join liver health support group",
       "Download patient education materials"] :=
  ⟨rfl, rfl, rfl⟩

/-- C10: a risk score of exactly 70 is classified as the medium tier
(yellow), not the high tier (red): the `> 70` boundary is exclusive, and
the high tier holds exactly for scores strictly greater than 70. -/
theorem riskColorClass_70_is_medium :
    riskColorClass 70 = "text-yellow-600" ∧
    riskColorClass 70 ≠ "text-red-600" ∧
    ∀ r : ℚ, riskColorClass r = "text-red-600" ↔ 70 < r :=
  ⟨by decide, by decide, riskColorClass_red_iff⟩

end LiverCare
